import Mathlib

/-!
Verification development for the RFP / proposal analysis tool
(Streamlit application `app.py`, Gemini wrapper `gemini_client.py`,
HTTP wrapper `fastapi_main.py`).

The Streamlit session state is embedded as an explicit record of optional
entries (`none` models a key that is absent or set to Python `None`); the
per-step "produce the artifact once" blocks are embedded as explicit state
transformers returning the new state together with the number of external
generation calls performed; the external generative service is a function
parameter (`Option String` result: `none` models a call that raised or
returned no usable content).
-/

namespace RFPTool

/-- Python truthiness of an optional string session-state entry:
`None` and the empty string are falsy, everything else truthy. -/
def truthyS : Option String → Bool
  | none => false
  | some s => !s.isEmpty

/-- Python truthiness of an optional dict session-state entry
(embedded as an association list): `None` and the empty dict are falsy. -/
def truthyD : Option (List (String × String)) → Bool
  | none => false
  | some l => !l.isEmpty

/-- The Streamlit session state of `app.py`, one optional entry per
session-state key used by either mode.  `none` models an absent key or a
key holding Python `None`; `step` is always written before it is read, so
it is kept as a plain natural number. -/
structure SState where
  mode : Option String
  step : Nat
  processing : Bool
  -- mode "with_proposal" entries
  proposal_text : Option String
  proposal_analysis : Option (List (String × String))
  ai_analysis_details : Option String
  proposal_summary : Option String
  extra_component : Option String
  current_filename : Option String
  -- mode "create_proposal" entries
  rfp_text : Option String
  company_profile : Option String
  rfp_breakdown : Option String
  eligibility_analysis : Option String
  requirements : Option String
  tasks : Option String
  proposal : Option String
  competitive_analysis : Option String
  innovation_assessment : Option String
  executive_briefing : Option String
deriving DecidableEq

/-- Session state after the module-level initialisation of the first
script run: mode `"with_proposal"`, step 1, the mode-1 keys filled with
their defaults, the mode-2 keys not yet created. -/
def initState : SState :=
  { mode := some "with_proposal", step := 1, processing := false
    proposal_text := some "", proposal_analysis := none
    ai_analysis_details := none, proposal_summary := none
    extra_component := some "", current_filename := none
    rfp_text := none, company_profile := none, rfp_breakdown := none
    eligibility_analysis := none, requirements := none, tasks := none
    proposal := none, competitive_analysis := none
    innovation_assessment := none, executive_briefing := none }

/-- `next_step` (app.py lines 355-357 and 720-722): unconditionally
increments `st.session_state.step` and clears the processing flag. -/
def next_step (s : SState) : SState :=
  { s with step := s.step + 1, processing := false }

/-- `reset_process` (app.py lines 725-732): deletes every session-state
key except `company_profile` (in particular `mode` is deleted), then sets
`step := 1` and `processing := False`. -/
def reset_process (s : SState) : SState :=
  { mode := none, step := 1, processing := false
    proposal_text := none, proposal_analysis := none
    ai_analysis_details := none, proposal_summary := none
    extra_component := none, current_filename := none
    rfp_text := none, company_profile := s.company_profile
    rfp_breakdown := none, eligibility_analysis := none
    requirements := none, tasks := none, proposal := none
    competitive_analysis := none, innovation_assessment := none
    executive_briefing := none }

/-- `reset_process_proposal` (app.py lines 360-365): deletes every
session-state key except `mode` and `company_profile`, then sets
`step := 1` and `processing := False`. -/
def reset_process_proposal (s : SState) : SState :=
  { mode := s.mode, step := 1, processing := false
    proposal_text := none, proposal_analysis := none
    ai_analysis_details := none, proposal_summary := none
    extra_component := none, current_filename := none
    rfp_text := none, company_profile := s.company_profile
    rfp_breakdown := none, eligibility_analysis := none
    requirements := none, tasks := none, proposal := none
    competitive_analysis := none, innovation_assessment := none
    executive_briefing := none }

/-- Step 2 of mode 2 (app.py lines 934-940):
`if not st.session_state.rfp_breakdown: st.session_state.rfp_breakdown =
gemini.analyze_rfp(st.session_state.rfp_text)`.  The second component
counts external generation calls; a `none` result models a call that
raised, leaving the artifact unset. -/
def ensure_rfp_breakdown (s : SState) (run : Option String → Option String) :
    SState × Nat :=
  if truthyS s.rfp_breakdown then (s, 0)
  else match run s.rfp_text with
    | some t => ({ s with rfp_breakdown := some t }, 1)
    | none => (s, 1)

/-- Step 3 of mode 2 (app.py lines 972-979): produce
`eligibility_analysis` from `rfp_text` and `company_profile` once. -/
def ensure_eligibility (s : SState)
    (run : Option String → Option String → Option String) : SState × Nat :=
  if truthyS s.eligibility_analysis then (s, 0)
  else match run s.rfp_text s.company_profile with
    | some t => ({ s with eligibility_analysis := some t }, 1)
    | none => (s, 1)

/-- Step 4 of mode 2 (app.py lines 1022-1027): produce `requirements`
from `rfp_text` once. -/
def ensure_requirements (s : SState) (run : Option String → Option String) :
    SState × Nat :=
  if truthyS s.requirements then (s, 0)
  else match run s.rfp_text with
    | some t => ({ s with requirements := some t }, 1)
    | none => (s, 1)

/-- Step 5 of mode 2 (app.py lines 1062-1067):
`if not st.session_state.tasks: st.session_state.tasks =
gemini.generate_tasks(st.session_state.requirements)`.  Note that the
stored `requirements` entry is handed to the generation call as-is; no
presence check precedes the call. -/
def ensure_tasks (s : SState) (run : Option String → Option String) :
    SState × Nat :=
  if truthyS s.tasks then (s, 0)
  else match run s.requirements with
    | some t => ({ s with tasks := some t }, 1)
    | none => (s, 1)

/-- Step 6 of mode 2 (app.py lines 1104-1111): produce
`competitive_analysis` from `rfp_text` and `company_profile` once. -/
def ensure_competitive_analysis (s : SState)
    (run : Option String → Option String → Option String) : SState × Nat :=
  if truthyS s.competitive_analysis then (s, 0)
  else match run s.rfp_text s.company_profile with
    | some t => ({ s with competitive_analysis := some t }, 1)
    | none => (s, 1)

/-- Step 7 of mode 2 (app.py lines 1136-1143): produce
`innovation_assessment` from `rfp_text` alone once. -/
def ensure_innovation_assessment (s : SState)
    (run : Option String → Option String) : SState × Nat :=
  if truthyS s.innovation_assessment then (s, 0)
  else match run s.rfp_text with
    | some t => ({ s with innovation_assessment := some t }, 1)
    | none => (s, 1)

/-- Step 8 of mode 2 (app.py lines 1168-1175): produce
`executive_briefing` from `rfp_text` and `company_profile` once. -/
def ensure_executive_briefing (s : SState)
    (run : Option String → Option String → Option String) : SState × Nat :=
  if truthyS s.executive_briefing then (s, 0)
  else match run s.rfp_text s.company_profile with
    | some t => ({ s with executive_briefing := some t }, 1)
    | none => (s, 1)

/-- Step 9 of mode 2 (app.py lines 1199-1207): produce `proposal` from
`rfp_text` and `company_profile` once. -/
def ensure_proposal (s : SState)
    (run : Option String → Option String → Option String) : SState × Nat :=
  if truthyS s.proposal then (s, 0)
  else match run s.rfp_text s.company_profile with
    | some t => ({ s with proposal := some t }, 1)
    | none => (s, 1)

/-- The fixed component dictionary built by `analyze_proposal_components`
(app.py lines 326-338): eleven entries, each unconditionally mapped to the
"present" check mark, independent of the AI analysis result. -/
def componentsChecklist : List (String × String) :=
  [("Executive Summary", "✅"), ("Scope of Work", "✅"),
   ("Out of Scope", "✅"), ("Prerequisites", "✅"),
   ("Deliverables", "✅"), ("Timeline", "✅"),
   ("Technology Stack", "✅"), ("Budget", "✅"),
   ("Team Structure", "✅"), ("Risk Assessment", "✅"),
   ("Success Criteria", "✅")]

/-- `analyze_proposal_components` (app.py lines 320-344): invokes the
component-analysis generation call once; on success returns the fixed
`componentsChecklist` dictionary together with the AI analysis text, on
an exception returns `(None, None)`. -/
def analyze_proposal_components (proposal_text extra_component : Option String)
    (run : Option String → Option String → Option String) :
    Option (List (String × String)) × Option String :=
  match run proposal_text extra_component with
  | some d => (some componentsChecklist, some d)
  | none => (none, none)

/-- Step 2 of mode 1 (app.py lines 581-584):
`if st.session_state.proposal_text and not st.session_state.proposal_analysis:`
run `analyze_proposal_components` and store both results. -/
def ensure_proposal_analysis (s : SState)
    (run : Option String → Option String → Option String) : SState × Nat :=
  if truthyS s.proposal_text && !truthyD s.proposal_analysis then
    let r := analyze_proposal_components s.proposal_text s.extra_component run
    ({ s with proposal_analysis := r.1, ai_analysis_details := r.2 }, 1)
  else (s, 0)

/-- Step 3 of mode 1 (app.py lines 628-633): produce `proposal_summary`
from `proposal_text` and `ai_analysis_details` once. -/
def ensure_proposal_summary (s : SState)
    (run : Option String → Option String → Option String) : SState × Nat :=
  if truthyS s.proposal_summary then (s, 0)
  else match run s.proposal_text s.ai_analysis_details with
    | some t => ({ s with proposal_summary := some t }, 1)
    | none => (s, 1)

/-! ## The component checklist assembled by `GeminiClient.analysis_proposal`
(gemini_client.py lines 408-468) -/

/-- `standard_components` (gemini_client.py lines 419-434): the fixed,
numbered list of component names handed to the generation prompt. -/
def standard_components : List String :=
  ["1. Executive Summary / Project Overview",
   "2. Scope of Work (In Scope)",
   "3. Out of Scope",
   "4. Prerequisites / Requirements",
   "5. Deliverables",
   "6. Timeline / Schedule",
   "7. Technology Stack / Technical Requirements",
   "8. Budget / Cost Estimation",
   "9. Team Structure / Resources",
   "10. Risk Assessment / Mitigation",
   "11. Success Criteria / Acceptance Criteria",
   "12. Testing Strategy",
   "13. Maintenance & Support",
   "14. Additional Comments / Notes"]

/-- The caller-supplied `extra_components` argument of
`analysis_proposal`: Python `None`, a single string, or a list of
strings. -/
def ExtraComponents : Type := Option (String ⊕ List String)

/-- The numbering loop of `analysis_proposal` (gemini_client.py lines
446-448): append each extra component as its number, a dot and a space,
incrementing `next_number` after every append. -/
def appendExtras : Nat → List String → List String → List String
  | _, acc, [] => acc
  | n, acc, c :: cs => appendExtras (n + 1) (acc ++ [toString n ++ ". " ++ c]) cs

/-- `components_to_check` as built by `analysis_proposal` (gemini_client.py
lines 437-448): a copy of `standard_components`, followed — when
`extra_components` is truthy — by the numbered extras, the numbering
continuing from `len(standard_components) + 1`. -/
def components_to_check (extra : ExtraComponents) : List String :=
  match extra with
  | none => standard_components
  | some (Sum.inl s) =>
      if s.isEmpty then standard_components
      else standard_components ++
        [toString (standard_components.length + 1) ++ ". " ++ s]
  | some (Sum.inr l) =>
      if l.isEmpty then standard_components
      else appendExtras (standard_components.length + 1) standard_components l

/-- The canonical short component names of the checklist contract, in
order. -/
def canonical_components : List String :=
  ["Executive Summary", "Scope of Work", "Out of Scope", "Prerequisites",
   "Deliverables", "Timeline", "Technology Stack", "Budget",
   "Team Structure", "Risk Assessment", "Success Criteria",
   "Testing Strategy", "Maintenance & Support", "Additional Comments"]

/-- The trailing qualifier each `standard_components` entry carries after
its canonical name (empty when the entry is the canonical name alone). -/
def component_qualifiers : List String :=
  [" / Project Overview", " (In Scope)", "", " / Requirements", "",
   " / Schedule", " / Technical Requirements", " / Cost Estimation",
   " / Resources", " / Mitigation", " / Acceptance Criteria", "", "",
   " / Notes"]

/-! ## Uploaded-file text extraction (app.py lines 49-131) -/

/-- An uploaded file as seen by `process_uploaded_file`: its declared
MIME type, its name, and its textual content.  For the `text/plain`
branch, `getvalue().decode("utf-8")` recovers exactly `content`. -/
structure UploadedFile where
  ftype : String
  name : String
  content : String

/-- `process_uploaded_file` / `process_uploaded_file_Proposal` (app.py
lines 49-89 and 91-131; the two differ only in which Gemini extraction
helper they delegate to, abstracted here as the `extractDocx` /
`extractPdf` parameters).  The `text/plain` branch returns the decoded
content directly; the DOCX and PDF branches return the extraction result
when it is truthy and `None` otherwise; unknown types yield `None`. -/
def process_uploaded_file (f : Option UploadedFile)
    (extractDocx extractPdf : UploadedFile → Option String) : Option String :=
  match f with
  | none => none
  | some file =>
    if file.ftype = "text/plain" then some file.content
    else if file.ftype =
        "application/vnd.openxmlformats-officedocument.wordprocessingml.document" then
      match extractDocx file with
      | some c => if c.isEmpty then none else some c
      | none => none
    else if file.ftype = "application/pdf" then
      match extractPdf file with
      | some c => if c.isEmpty then none else some c
      | none => none
    else none

/-! ## The FastAPI wrapper (fastapi_main.py) -/

/-- How a call into `GeminiClient` can fail at the Python level:
the attribute does not exist on the class, the number of positional
arguments does not match the method signature, or the underlying
generation call raised. -/
inductive PyError where
  | attributeError
  | typeError
  | serviceFailure
deriving DecidableEq

/-- The methods defined on class `GeminiClient` (gemini_client.py), each
with the least and greatest number of positional arguments (excluding
`self`) its signature accepts.  `analysis_proposal` has one optional
parameter; every other method has only required parameters. -/
def geminiMethodTable : List (String × (Nat × Nat)) :=
  [("extract_text_from_docx", (1, 1)),
   ("extract_text_from_pdf_file", (1, 1)),
   ("extract_text_from_uploaded_pdf", (1, 1)),
   ("analyze_eligibility", (2, 2)),
   ("generate_project_proposal", (2, 2)),
   ("analyze_competitive_landscape", (2, 2)),
   ("generate_executive_briefing", (2, 2)),
   ("assess_innovation_opportunities", (1, 1)),
   ("analyze_rfp", (1, 1)),
   ("extract_requirements", (1, 1)),
   ("generate_tasks", (1, 1)),
   ("analysis_proposal", (1, 2)),
   ("analysis_proposal_summary", (2, 2)),
   ("extract_text_from_docx_proposal", (1, 1)),
   ("extract_text_from_pdf_file_proposal", (1, 1)),
   ("extract_text_from_uploaded_pdf_proposal", (1, 1))]

/-- A Python-level call `gemini.<name>(<args>)`: attribute lookup on the
class, positional-arity check, then the external generation call (`svc`,
whose `none` result models a raised exception inside the method body). -/
def invokeGemini (svc : String → List (Option String) → Option String)
    (name : String) (args : List (Option String)) : Except PyError String :=
  match geminiMethodTable.lookup name with
  | none => Except.error PyError.attributeError
  | some (lo, hi) =>
    if args.length < lo || hi < args.length then Except.error PyError.typeError
    else match svc name args with
      | some r => Except.ok r
      | none => Except.error PyError.serviceFailure

/-- The `AnalysisResponse` model of fastapi_main.py. -/
structure AnalysisResponse where
  status : String
  result : String
  error : Option String
deriving DecidableEq

/-- The `try/except` wrapper every analysis endpoint uses: a successful
call becomes `status="success"`, any exception becomes `status="error"`
with an empty `result`. -/
def handleEndpoint : Except PyError String → AnalysisResponse
  | Except.ok r => { status := "success", result := r, error := none }
  | Except.error _ =>
      { status := "error", result := "", error := some "exception" }

/-- `POST /analyze/pricing` (fastapi_main.py lines 43-52): component
analysis first, then `gemini.analyze_pricing(...)`. -/
def analyze_pricing_endpoint (svc : String → List (Option String) → Option String)
    (proposal_text : String) (extra_components : Option String) :
    AnalysisResponse :=
  handleEndpoint
    ((invokeGemini svc "analysis_proposal" [some proposal_text, extra_components]).bind
      fun ca => invokeGemini svc "analyze_pricing" [some proposal_text, some ca])

/-- `POST /analyze/cost-realism` (fastapi_main.py lines 54-62): component
analysis first, then `gemini.analyze_cost_realism(...)`. -/
def cost_realism_endpoint (svc : String → List (Option String) → Option String)
    (proposal_text : String) (extra_components : Option String) :
    AnalysisResponse :=
  handleEndpoint
    ((invokeGemini svc "analysis_proposal" [some proposal_text, extra_components]).bind
      fun ca => invokeGemini svc "analyze_cost_realism" [some proposal_text, some ca])

/-- `POST /analyze/technical` (fastapi_main.py lines 64-71):
`gemini.technical_analysis_review(...)`. -/
def technical_endpoint (svc : String → List (Option String) → Option String)
    (proposal_text : String) : AnalysisResponse :=
  handleEndpoint (invokeGemini svc "technical_analysis_review" [some proposal_text])

/-- `POST /analyze/compliance` (fastapi_main.py lines 73-80):
`gemini.compliance_assessment(...)`. -/
def compliance_endpoint (svc : String → List (Option String) → Option String)
    (proposal_text : String) : AnalysisResponse :=
  handleEndpoint (invokeGemini svc "compliance_assessment" [some proposal_text])

/-- `POST /generate/summary` (fastapi_main.py lines 131-148):
`gemini.analysis_proposal_summary` invoked with six positional
arguments. -/
def generate_summary_endpoint
    (svc : String → List (Option String) → Option String)
    (proposal_text : String)
    (component_analysis price_analysis cost_realism technical_analysis
      compliance_assessment : Option String) : AnalysisResponse :=
  handleEndpoint
    (invokeGemini svc "analysis_proposal_summary"
      [some proposal_text, component_analysis, price_analysis, cost_realism,
       technical_analysis, compliance_assessment])

/-! ## The wizard as a transition system -/

/-- Modelled from the spec: `canAdvance(session)` — "true iff the current
stage's artifact is produced (or the stage is a pure-input stage satisfied
by required inputs being non-empty)".  No function of src implements this
predicate; app.py gates advancement only by conditionally rendering the
advance button of each page.  The per-stage artifact/input table below
follows the stage sequencing of the spec, matching which session-state
entry each page of app.py produces and displays. -/
def canAdvance (s : SState) : Bool :=
  match s.mode with
  | some "with_proposal" =>
    match s.step with
    | 1 => truthyS s.proposal_text
    | 2 => truthyD s.proposal_analysis
    | 3 => truthyS s.proposal_summary
    | _ => false
  | some "create_proposal" =>
    match s.step with
    | 1 => truthyS s.rfp_text && truthyS s.company_profile
    | 2 => truthyS s.rfp_breakdown
    | 3 => truthyS s.eligibility_analysis
    | 4 => truthyS s.requirements
    | 5 => truthyS s.tasks
    | 6 => truthyS s.competitive_analysis
    | 7 => truthyS s.innovation_assessment
    | 8 => truthyS s.executive_briefing
    | 9 => truthyS s.proposal
    | _ => false
  | _ => false

/-- One user-visible event of app.py, as a relation between session
states.  Each constructor corresponds to one button handler, input
widget, initialisation block, or per-page generation block, with the
guard under which app.py reaches that code. -/
inductive AppStep : SState → SState → Prop where
  /-- Module-level initialisation (app.py lines 376-377): a run that finds
  no `mode` key sets it to `"with_proposal"`. -/
  | init_mode (s : SState) (h : s.mode = none) :
      AppStep s { s with mode := some "with_proposal" }
  /-- "Create Proposal" button (app.py lines 457-462): switch the mode to
  `"create_proposal"` and run `reset_process_proposal`. -/
  | switch_to_create (s : SState) (h : s.mode = some "with_proposal") :
      AppStep s (reset_process_proposal { s with mode := some "create_proposal" })
  /-- "Go To Main Page" button (app.py lines 463-467): switch the mode to
  `"with_proposal"` and run `reset_process_proposal`. -/
  | switch_to_main (s : SState) (h : s.mode = some "create_proposal") :
      AppStep s (reset_process_proposal { s with mode := some "with_proposal" })
  /-- Mode-1 sidebar "Reset Analysis" button (app.py lines 507-512):
  clears the four analysis entries, leaving `step` untouched. -/
  | m1_sidebar_reset (s : SState) (h : s.mode = some "with_proposal") :
      AppStep s { s with proposal_text := some "", proposal_analysis := none,
                         ai_analysis_details := none, proposal_summary := none }
  /-- Mode-1 step 1 upload (app.py lines 549-553): a successfully
  extracted non-empty text is stored with the file name. -/
  | m1_upload (s : SState) (t fn : String) (ht : ¬t.isEmpty)
      (h : s.mode = some "with_proposal") (h1 : s.step = 1) :
      AppStep s { s with current_filename := some fn, proposal_text := some t }
  /-- Mode-1 step 1 extra-component text area (app.py lines 557-565). -/
  | m1_set_extra (s : SState) (e : String) (he : ¬e.isEmpty)
      (h : s.mode = some "with_proposal") (h1 : s.step = 1) :
      AppStep s { s with extra_component := some e }
  /-- Mode-1 "Proposal Analysis" button (app.py lines 571-574), enabled
  only when `proposal_text` is truthy. -/
  | m1_go_analysis (s : SState) (h : s.mode = some "with_proposal")
      (h1 : s.step = 1) (h2 : truthyS s.proposal_text = true) :
      AppStep s { s with processing := true, step := 2 }
  /-- Mode-1 step 2 generation block (app.py lines 581-584). -/
  | m1_produce_analysis (s : SState)
      (run : Option String → Option String → Option String)
      (h : s.mode = some "with_proposal") (h1 : s.step = 2) :
      AppStep s (ensure_proposal_analysis s run).1
  /-- Mode-1 "Back to Upload" button (app.py lines 617-619), rendered
  inside the `if st.session_state.proposal_analysis:` block. -/
  | m1_back (s : SState) (h : s.mode = some "with_proposal") (h1 : s.step = 2)
      (h2 : truthyD s.proposal_analysis = true) :
      AppStep s { s with step := 1 }
  /-- Mode-1 "Generate Summary Report" button (app.py lines 621-623),
  rendered inside the `if st.session_state.proposal_analysis:` block. -/
  | m1_go_summary (s : SState) (h : s.mode = some "with_proposal")
      (h1 : s.step = 2) (h2 : truthyD s.proposal_analysis = true) :
      AppStep s { s with step := 3 }
  /-- Mode-1 step 3 generation block (app.py lines 628-633). -/
  | m1_produce_summary (s : SState)
      (run : Option String → Option String → Option String)
      (h : s.mode = some "with_proposal") (h1 : s.step = 3) :
      AppStep s (ensure_proposal_summary s run).1
  /-- Mode-2 initialisation block (app.py lines 697-703): a missing
  `company_profile` key is filled from the profile file (or `""`). -/
  | m2_init_profile (s : SState) (c : String)
      (h : s.mode = some "create_proposal") (hc : s.company_profile = none) :
      AppStep s { s with company_profile := some c }
  /-- Mode-2 step 1 RFP upload or paste (app.py lines 841-873): a
  successfully extracted non-empty text is stored. -/
  | m2_set_rfp (s : SState) (t : String) (ht : ¬t.isEmpty)
      (h : s.mode = some "create_proposal") (h1 : s.step = 1) :
      AppStep s { s with rfp_text := some t }
  /-- Mode-2 step 1 company-profile text area (app.py lines 897-904). -/
  | m2_set_profile (s : SState) (c : String) (hc : ¬c.isEmpty)
      (h : s.mode = some "create_proposal") (h1 : s.step = 1) :
      AppStep s { s with company_profile := some c }
  /-- Mode-2 "Start Analysis Process" button (app.py lines 907-917),
  rendered only when both `rfp_text` and `company_profile` are truthy. -/
  | m2_go_breakdown (s : SState) (h : s.mode = some "create_proposal")
      (h1 : s.step = 1) (h2 : truthyS s.rfp_text = true)
      (h3 : truthyS s.company_profile = true) :
      AppStep s { s with processing := true, step := 2 }
  /-- Mode-2 per-page generation blocks (steps 2-9). -/
  | m2_produce_breakdown (s : SState) (run : Option String → Option String)
      (h : s.mode = some "create_proposal") (h1 : s.step = 2) :
      AppStep s (ensure_rfp_breakdown s run).1
  | m2_produce_eligibility (s : SState)
      (run : Option String → Option String → Option String)
      (h : s.mode = some "create_proposal") (h1 : s.step = 3) :
      AppStep s (ensure_eligibility s run).1
  | m2_produce_requirements (s : SState) (run : Option String → Option String)
      (h : s.mode = some "create_proposal") (h1 : s.step = 4) :
      AppStep s (ensure_requirements s run).1
  | m2_produce_tasks (s : SState) (run : Option String → Option String)
      (h : s.mode = some "create_proposal") (h1 : s.step = 5) :
      AppStep s (ensure_tasks s run).1
  | m2_produce_competitive (s : SState)
      (run : Option String → Option String → Option String)
      (h : s.mode = some "create_proposal") (h1 : s.step = 6) :
      AppStep s (ensure_competitive_analysis s run).1
  | m2_produce_innovation (s : SState) (run : Option String → Option String)
      (h : s.mode = some "create_proposal") (h1 : s.step = 7) :
      AppStep s (ensure_innovation_assessment s run).1
  | m2_produce_briefing (s : SState)
      (run : Option String → Option String → Option String)
      (h : s.mode = some "create_proposal") (h1 : s.step = 8) :
      AppStep s (ensure_executive_briefing s run).1
  | m2_produce_proposal (s : SState)
      (run : Option String → Option String → Option String)
      (h : s.mode = some "create_proposal") (h1 : s.step = 9) :
      AppStep s (ensure_proposal s run).1
  /-- Mode-2 "Proceed" buttons: each of the pages for steps 2 through 8
  renders a button whose handler is `next_step` (app.py lines 960-962,
  1006-1008, 1050-1052, 1090-1092, 1122-1124, 1154-1156, 1186-1188). -/
  | m2_next (s : SState) (h : s.mode = some "create_proposal")
      (h2 : 2 ≤ s.step) (h8 : s.step ≤ 8) :
      AppStep s (next_step s)
  /-- Mode-2 step 3 "No, start over" button (app.py lines 1010-1012). -/
  | m2_decline (s : SState) (h : s.mode = some "create_proposal")
      (h1 : s.step = 3) :
      AppStep s (reset_process s)
  /-- Mode-2 sidebar "Start Over" button (app.py lines 789-791). -/
  | m2_start_over (s : SState) (h : s.mode = some "create_proposal") :
      AppStep s (reset_process s)
  /-- Mode-2 step 9 "Generate New Proposal" button (app.py lines
  1234-1237): clears only the proposal artifact. -/
  | m2_new_proposal (s : SState) (h : s.mode = some "create_proposal")
      (h1 : s.step = 9) :
      AppStep s { s with proposal := none }
  /-- Mode-2 step 9 "Start New RFP Analysis" button (app.py lines
  1240-1242). -/
  | m2_start_new (s : SState) (h : s.mode = some "create_proposal")
      (h1 : s.step = 9) :
      AppStep s (reset_process s)

/-- Session states reachable from the first script run. -/
inductive Reachable : SState → Prop where
  | init : Reachable initState
  | next {s t : SState} : Reachable s → AppStep s t → Reachable t

/-- The stage-index bound of the spec: `currentStageIndex` never exceeds
`stageCount + 1`, i.e. 10 in mode `"create_proposal"` (9 stages) and 4
otherwise (3 stages). -/
def stepBound (s : SState) : Prop :=
  (s.mode = some "create_proposal" → s.step ≤ 10) ∧
  (s.mode ≠ some "create_proposal" → s.step ≤ 4)

/-! ## Helper predicates and lemmas -/

/-- Every stage artifact entry of the session is cleared. -/
def artifactsCleared (s : SState) : Prop :=
  s.proposal_analysis = none ∧ s.ai_analysis_details = none ∧
  s.proposal_summary = none ∧ s.rfp_breakdown = none ∧
  s.eligibility_analysis = none ∧ s.requirements = none ∧
  s.tasks = none ∧ s.proposal = none ∧ s.competitive_analysis = none ∧
  s.innovation_assessment = none ∧ s.executive_briefing = none

/-- Every input entry other than the sticky company profile is
cleared. -/
def nonStickyInputsCleared (s : SState) : Prop :=
  s.proposal_text = none ∧ s.extra_component = none ∧
  s.current_filename = none ∧ s.rfp_text = none

@[simp] theorem ensure_rfp_breakdown_step (s : SState) (run) :
    (ensure_rfp_breakdown s run).1.step = s.step := by
  unfold ensure_rfp_breakdown; split
  · rfl
  · split <;> rfl

@[simp] theorem ensure_rfp_breakdown_mode (s : SState) (run) :
    (ensure_rfp_breakdown s run).1.mode = s.mode := by
  unfold ensure_rfp_breakdown; split
  · rfl
  · split <;> rfl

@[simp] theorem ensure_eligibility_step (s : SState) (run) :
    (ensure_eligibility s run).1.step = s.step := by
  unfold ensure_eligibility; split
  · rfl
  · split <;> rfl

@[simp] theorem ensure_eligibility_mode (s : SState) (run) :
    (ensure_eligibility s run).1.mode = s.mode := by
  unfold ensure_eligibility; split
  · rfl
  · split <;> rfl

@[simp] theorem ensure_requirements_step (s : SState) (run) :
    (ensure_requirements s run).1.step = s.step := by
  unfold ensure_requirements; split
  · rfl
  · split <;> rfl

@[simp] theorem ensure_requirements_mode (s : SState) (run) :
    (ensure_requirements s run).1.mode = s.mode := by
  unfold ensure_requirements; split
  · rfl
  · split <;> rfl

@[simp] theorem ensure_tasks_step (s : SState) (run) :
    (ensure_tasks s run).1.step = s.step := by
  unfold ensure_tasks; split
  · rfl
  · split <;> rfl

@[simp] theorem ensure_tasks_mode (s : SState) (run) :
    (ensure_tasks s run).1.mode = s.mode := by
  unfold ensure_tasks; split
  · rfl
  · split <;> rfl

@[simp] theorem ensure_competitive_analysis_step (s : SState) (run) :
    (ensure_competitive_analysis s run).1.step = s.step := by
  unfold ensure_competitive_analysis; split
  · rfl
  · split <;> rfl

@[simp] theorem ensure_competitive_analysis_mode (s : SState) (run) :
    (ensure_competitive_analysis s run).1.mode = s.mode := by
  unfold ensure_competitive_analysis; split
  · rfl
  · split <;> rfl

@[simp] theorem ensure_innovation_assessment_step (s : SState) (run) :
    (ensure_innovation_assessment s run).1.step = s.step := by
  unfold ensure_innovation_assessment; split
  · rfl
  · split <;> rfl

@[simp] theorem ensure_innovation_assessment_mode (s : SState) (run) :
    (ensure_innovation_assessment s run).1.mode = s.mode := by
  unfold ensure_innovation_assessment; split
  · rfl
  · split <;> rfl

@[simp] theorem ensure_executive_briefing_step (s : SState) (run) :
    (ensure_executive_briefing s run).1.step = s.step := by
  unfold ensure_executive_briefing; split
  · rfl
  · split <;> rfl

@[simp] theorem ensure_executive_briefing_mode (s : SState) (run) :
    (ensure_executive_briefing s run).1.mode = s.mode := by
  unfold ensure_executive_briefing; split
  · rfl
  · split <;> rfl

@[simp] theorem ensure_proposal_step (s : SState) (run) :
    (ensure_proposal s run).1.step = s.step := by
  unfold ensure_proposal; split
  · rfl
  · split <;> rfl

@[simp] theorem ensure_proposal_mode (s : SState) (run) :
    (ensure_proposal s run).1.mode = s.mode := by
  unfold ensure_proposal; split
  · rfl
  · split <;> rfl

@[simp] theorem ensure_proposal_analysis_step (s : SState) (run) :
    (ensure_proposal_analysis s run).1.step = s.step := by
  unfold ensure_proposal_analysis; split <;> rfl

@[simp] theorem ensure_proposal_analysis_mode (s : SState) (run) :
    (ensure_proposal_analysis s run).1.mode = s.mode := by
  unfold ensure_proposal_analysis; split <;> rfl

@[simp] theorem ensure_proposal_summary_step (s : SState) (run) :
    (ensure_proposal_summary s run).1.step = s.step := by
  unfold ensure_proposal_summary; split
  · rfl
  · split <;> rfl

@[simp] theorem ensure_proposal_summary_mode (s : SState) (run) :
    (ensure_proposal_summary s run).1.mode = s.mode := by
  unfold ensure_proposal_summary; split
  · rfl
  · split <;> rfl

/-! ## C2 -/

/-- C2: `resetSession` with the company profile sticky — both
`reset_process` and `reset_process_proposal` leave
`inputs.companyProfile` unchanged, clear every stage artifact and every
non-sticky input, and set the stage index back to 1. -/
theorem reset_keeps_only_company_profile (s : SState) :
    ((reset_process s).company_profile = s.company_profile ∧
     artifactsCleared (reset_process s) ∧
     nonStickyInputsCleared (reset_process s) ∧
     (reset_process s).step = 1) ∧
    ((reset_process_proposal s).company_profile = s.company_profile ∧
     artifactsCleared (reset_process_proposal s) ∧
     nonStickyInputsCleared (reset_process_proposal s) ∧
     (reset_process_proposal s).step = 1) := by
  simp [reset_process, reset_process_proposal, artifactsCleared,
    nonStickyInputsCleared]

/-! ## C9 -/

/-- C9: for the plain-text upload path the extracted text is the
uploaded content itself, character for character — the `text/plain`
branch returns the decoded content with no conversion, so its length is
the uploaded document's length. -/
theorem plain_text_upload_roundtrip (f : UploadedFile)
    (extractDocx extractPdf : UploadedFile → Option String)
    (h : f.ftype = "text/plain") :
    process_uploaded_file (some f) extractDocx extractPdf = some f.content ∧
    (process_uploaded_file (some f) extractDocx extractPdf).map String.length =
      some f.content.length := by
  simp [process_uploaded_file, h]

/-- Witness for C9 at a concrete nine-character text file. -/
theorem plain_text_upload_roundtrip_witness :
    process_uploaded_file (some ⟨"text/plain", "doc.txt", "hello RFP"⟩)
      (fun _ => none) (fun _ => none) = some "hello RFP" ∧
    (process_uploaded_file (some ⟨"text/plain", "doc.txt", "hello RFP"⟩)
      (fun _ => none) (fun _ => none)).map String.length =
      some ("hello RFP" : String).length :=
  plain_text_upload_roundtrip ⟨"text/plain", "doc.txt", "hello RFP"⟩
    (fun _ => none) (fun _ => none) rfl

/-! ## C10 -/

/-- C10: the five endpoints backed by methods that do not exist on
`GeminiClient` (or called with the wrong arity) always answer
`status = "error"` with an empty result, for every behaviour of the
underlying generation service and every request. -/
theorem broken_endpoints_always_error
    (svc : String → List (Option String) → Option String)
    (p : String) (e c1 c2 c3 c4 c5 : Option String) :
    (analyze_pricing_endpoint svc p e).status = "error" ∧
    (analyze_pricing_endpoint svc p e).result = "" ∧
    (cost_realism_endpoint svc p e).status = "error" ∧
    (cost_realism_endpoint svc p e).result = "" ∧
    (technical_endpoint svc p).status = "error" ∧
    (technical_endpoint svc p).result = "" ∧
    (compliance_endpoint svc p).status = "error" ∧
    (compliance_endpoint svc p).result = "" ∧
    (generate_summary_endpoint svc p c1 c2 c3 c4 c5).status = "error" ∧
    (generate_summary_endpoint svc p c1 c2 c3 c4 c5).result = "" := by
  have hp : analyze_pricing_endpoint svc p e =
      { status := "error", result := "", error := some "exception" } := by
    unfold analyze_pricing_endpoint
    cases hv : invokeGemini svc "analysis_proposal" [some p, e] with
    | ok ca => rfl
    | error err => rfl
  have hcr : cost_realism_endpoint svc p e =
      { status := "error", result := "", error := some "exception" } := by
    unfold cost_realism_endpoint
    cases hv : invokeGemini svc "analysis_proposal" [some p, e] with
    | ok ca => rfl
    | error err => rfl
  refine ⟨?_, ?_, ?_, ?_, rfl, rfl, rfl, rfl, rfl, rfl⟩ <;>
    simp [hp, hcr]

/-! ## C1 -/

/-- C1: for every session state and every stage of either mode, once the
first `ensureProduced` call leaves the stage artifact populated, the
immediately following call (no reset in between) returns the state
unchanged with zero external generation calls, so the two calls together
invoke the external run at most once. -/
theorem ensure_produced_memoizes (s : SState)
    (rBr rReq rTask rInn : Option String → Option String)
    (rEl rComp rBrief rProp rAn rSum :
      Option String → Option String → Option String)
    (hBr : truthyS (ensure_rfp_breakdown s rBr).1.rfp_breakdown = true)
    (hEl : truthyS (ensure_eligibility s rEl).1.eligibility_analysis = true)
    (hReq : truthyS (ensure_requirements s rReq).1.requirements = true)
    (hTask : truthyS (ensure_tasks s rTask).1.tasks = true)
    (hComp : truthyS
      (ensure_competitive_analysis s rComp).1.competitive_analysis = true)
    (hInn : truthyS
      (ensure_innovation_assessment s rInn).1.innovation_assessment = true)
    (hBrief : truthyS
      (ensure_executive_briefing s rBrief).1.executive_briefing = true)
    (hProp : truthyS (ensure_proposal s rProp).1.proposal = true)
    (hAn : truthyD (ensure_proposal_analysis s rAn).1.proposal_analysis = true)
    (hSum : truthyS
      (ensure_proposal_summary s rSum).1.proposal_summary = true) :
    (ensure_rfp_breakdown (ensure_rfp_breakdown s rBr).1 rBr =
        ((ensure_rfp_breakdown s rBr).1, 0) ∧
      (ensure_rfp_breakdown s rBr).2 ≤ 1) ∧
    (ensure_eligibility (ensure_eligibility s rEl).1 rEl =
        ((ensure_eligibility s rEl).1, 0) ∧
      (ensure_eligibility s rEl).2 ≤ 1) ∧
    (ensure_requirements (ensure_requirements s rReq).1 rReq =
        ((ensure_requirements s rReq).1, 0) ∧
      (ensure_requirements s rReq).2 ≤ 1) ∧
    (ensure_tasks (ensure_tasks s rTask).1 rTask =
        ((ensure_tasks s rTask).1, 0) ∧
      (ensure_tasks s rTask).2 ≤ 1) ∧
    (ensure_competitive_analysis (ensure_competitive_analysis s rComp).1 rComp =
        ((ensure_competitive_analysis s rComp).1, 0) ∧
      (ensure_competitive_analysis s rComp).2 ≤ 1) ∧
    (ensure_innovation_assessment (ensure_innovation_assessment s rInn).1 rInn =
        ((ensure_innovation_assessment s rInn).1, 0) ∧
      (ensure_innovation_assessment s rInn).2 ≤ 1) ∧
    (ensure_executive_briefing (ensure_executive_briefing s rBrief).1 rBrief =
        ((ensure_executive_briefing s rBrief).1, 0) ∧
      (ensure_executive_briefing s rBrief).2 ≤ 1) ∧
    (ensure_proposal (ensure_proposal s rProp).1 rProp =
        ((ensure_proposal s rProp).1, 0) ∧
      (ensure_proposal s rProp).2 ≤ 1) ∧
    (ensure_proposal_analysis (ensure_proposal_analysis s rAn).1 rAn =
        ((ensure_proposal_analysis s rAn).1, 0) ∧
      (ensure_proposal_analysis s rAn).2 ≤ 1) ∧
    (ensure_proposal_summary (ensure_proposal_summary s rSum).1 rSum =
        ((ensure_proposal_summary s rSum).1, 0) ∧
      (ensure_proposal_summary s rSum).2 ≤ 1) := by
  refine ⟨?_, ?_, ?_, ?_, ?_, ?_, ?_, ?_, ?_, ?_⟩
  · by_cases h : truthyS s.rfp_breakdown = true
    · simp [ensure_rfp_breakdown, h]
    · cases hr : rBr s.rfp_text with
      | none => simp [ensure_rfp_breakdown, h, hr] at hBr
      | some t =>
        simp [ensure_rfp_breakdown, h, hr] at hBr ⊢
        simp [hBr]
  · by_cases h : truthyS s.eligibility_analysis = true
    · simp [ensure_eligibility, h]
    · cases hr : rEl s.rfp_text s.company_profile with
      | none => simp [ensure_eligibility, h, hr] at hEl
      | some t =>
        simp [ensure_eligibility, h, hr] at hEl ⊢
        simp [hEl]
  · by_cases h : truthyS s.requirements = true
    · simp [ensure_requirements, h]
    · cases hr : rReq s.rfp_text with
      | none => simp [ensure_requirements, h, hr] at hReq
      | some t =>
        simp [ensure_requirements, h, hr] at hReq ⊢
        simp [hReq]
  · by_cases h : truthyS s.tasks = true
    · simp [ensure_tasks, h]
    · cases hr : rTask s.requirements with
      | none => simp [ensure_tasks, h, hr] at hTask
      | some t =>
        simp [ensure_tasks, h, hr] at hTask ⊢
        simp [hTask]
  · by_cases h : truthyS s.competitive_analysis = true
    · simp [ensure_competitive_analysis, h]
    · cases hr : rComp s.rfp_text s.company_profile with
      | none =>
        simp [ensure_competitive_analysis, h, hr] at hComp
      | some t =>
        simp [ensure_competitive_analysis, h, hr] at hComp ⊢
        simp [hComp]
  · by_cases h : truthyS s.innovation_assessment = true
    · simp [ensure_innovation_assessment, h]
    · cases hr : rInn s.rfp_text with
      | none =>
        simp [ensure_innovation_assessment, h, hr] at hInn
      | some t =>
        simp [ensure_innovation_assessment, h, hr] at hInn ⊢
        simp [hInn]
  · by_cases h : truthyS s.executive_briefing = true
    · simp [ensure_executive_briefing, h]
    · cases hr : rBrief s.rfp_text s.company_profile with
      | none =>
        simp [ensure_executive_briefing, h, hr] at hBrief
      | some t =>
        simp [ensure_executive_briefing, h, hr] at hBrief ⊢
        simp [hBrief]
  · by_cases h : truthyS s.proposal = true
    · simp [ensure_proposal, h]
    · cases hr : rProp s.rfp_text s.company_profile with
      | none => simp [ensure_proposal, h, hr] at hProp
      | some t =>
        simp [ensure_proposal, h, hr] at hProp ⊢
        simp [hProp]
  · cases hpt : truthyS s.proposal_text with
    | false => simp [ensure_proposal_analysis, hpt]
    | true =>
      cases hpd : truthyD s.proposal_analysis with
      | true => simp [ensure_proposal_analysis, hpt, hpd]
      | false =>
        cases hr : rAn s.proposal_text s.extra_component with
        | none =>
          simp [ensure_proposal_analysis, analyze_proposal_components,
            hpt, hpd, hr] at hAn
          simp [truthyD] at hAn
        | some d =>
          simp [ensure_proposal_analysis, analyze_proposal_components,
            hpt, hpd, hr]
          simp [truthyD, componentsChecklist]
  · by_cases h : truthyS s.proposal_summary = true
    · simp [ensure_proposal_summary, h]
    · cases hr : rSum s.proposal_text s.ai_analysis_details with
      | none =>
        simp [ensure_proposal_summary, h, hr] at hSum
      | some t =>
        simp [ensure_proposal_summary, h, hr] at hSum ⊢
        simp [hSum]

/-- A session state with all stage-1 inputs populated and no artifact
produced yet, used to instantiate universally quantified theorems. -/
def fullInputsState : SState :=
  { initState with
    mode := some "create_proposal"
    proposal_text := some "Proposal body"
    rfp_text := some "RFP body"
    company_profile := some "Company profile" }

/-- Witness for C1: at a concrete session and a run producing non-empty
text, the second `ensure_rfp_breakdown` call is a no-op and at most one
generation call happens. -/
theorem ensure_produced_memoizes_witness :
    ensure_rfp_breakdown
        (ensure_rfp_breakdown fullInputsState (fun _ => some "out")).1
        (fun _ => some "out") =
      ((ensure_rfp_breakdown fullInputsState (fun _ => some "out")).1, 0) ∧
    (ensure_rfp_breakdown fullInputsState (fun _ => some "out")).2 ≤ 1 :=
  (ensure_produced_memoizes fullInputsState
    (fun _ => some "out") (fun _ => some "out") (fun _ => some "out")
    (fun _ => some "out") (fun _ _ => some "out") (fun _ _ => some "out")
    (fun _ _ => some "out") (fun _ _ => some "out") (fun _ _ => some "out")
    (fun _ _ => some "out") rfl rfl rfl rfl rfl rfl rfl rfl (by decide) rfl).1

/-! ## C7 -/

/-- C7: in mode 2 the generation calls of stage 6 (competitive
landscape), stage 7 (innovation assessment) and stage 8 (executive
briefing) receive exactly `rfp_text` (and for 6 and 8 `company_profile`)
as arguments: two sessions agreeing on those stage-1 inputs produce
identical artifacts under every run function, regardless of the
artifacts of stages 2-5. -/
theorem late_stages_depend_only_on_stage1_inputs (s t : SState)
    (run6 run8 : Option String → Option String → Option String)
    (run7 : Option String → Option String)
    (hr : s.rfp_text = t.rfp_text)
    (hc : s.company_profile = t.company_profile)
    (h6s : s.competitive_analysis = none) (h6t : t.competitive_analysis = none)
    (h7s : s.innovation_assessment = none)
    (h7t : t.innovation_assessment = none)
    (h8s : s.executive_briefing = none) (h8t : t.executive_briefing = none) :
    ((ensure_competitive_analysis s run6).1.competitive_analysis =
        (ensure_competitive_analysis t run6).1.competitive_analysis ∧
      (ensure_competitive_analysis s run6).2 = 1 ∧
      (ensure_competitive_analysis t run6).2 = 1) ∧
    ((ensure_innovation_assessment s run7).1.innovation_assessment =
        (ensure_innovation_assessment t run7).1.innovation_assessment ∧
      (ensure_innovation_assessment s run7).2 = 1 ∧
      (ensure_innovation_assessment t run7).2 = 1) ∧
    ((ensure_executive_briefing s run8).1.executive_briefing =
        (ensure_executive_briefing t run8).1.executive_briefing ∧
      (ensure_executive_briefing s run8).2 = 1 ∧
      (ensure_executive_briefing t run8).2 = 1) := by
  have e6 : run6 s.rfp_text s.company_profile =
      run6 t.rfp_text t.company_profile := by rw [hr, hc]
  have e7 : run7 s.rfp_text = run7 t.rfp_text := by rw [hr]
  have e8 : run8 s.rfp_text s.company_profile =
      run8 t.rfp_text t.company_profile := by rw [hr, hc]
  refine ⟨?_, ?_, ?_⟩
  · simp only [ensure_competitive_analysis, h6s, h6t, truthyS, e6]
    cases run6 t.rfp_text t.company_profile <;> simp [h6s, h6t]
  · simp only [ensure_innovation_assessment, h7s, h7t, truthyS, e7]
    cases run7 t.rfp_text <;> simp [h7s, h7t]
  · simp only [ensure_executive_briefing, h8s, h8t, truthyS, e8]
    cases run8 t.rfp_text t.company_profile <;> simp [h8s, h8t]

/-- Witness for C7: two sessions sharing stage-1 inputs but with
different stage 2-5 artifacts get the same competitive-analysis
artifact. -/
theorem late_stages_witness :
    (ensure_competitive_analysis fullInputsState
        (fun r c => some ((r.getD "") ++ (c.getD "")))).1.competitive_analysis =
      (ensure_competitive_analysis
        { fullInputsState with rfp_breakdown := some "B", tasks := some "T" }
        (fun r c => some ((r.getD "") ++ (c.getD "")))).1.competitive_analysis :=
  (late_stages_depend_only_on_stage1_inputs fullInputsState
    { fullInputsState with rfp_breakdown := some "B", tasks := some "T" }
    (fun r c => some ((r.getD "") ++ (c.getD "")))
    (fun r c => some ((r.getD "") ++ (c.getD "")))
    (fun r => some (r.getD ""))
    rfl rfl rfl rfl rfl rfl rfl rfl).1.1

/-! ## C3 -/

/-- A concrete mode-2 session sitting at stage 2 with no artifact
produced, so `canAdvance` is false. -/
def stalledBreakdownState : SState :=
  { fullInputsState with step := 2 }

/-- Counterexample to C3: at a session where `canAdvance` is false, the
advance operation (`next_step`) does not fail and does not leave the
session unchanged — it increments the stage index from 2 to 3; no
`PreconditionError` exists anywhere in the code. -/
theorem advance_unguarded_counterexample :
    canAdvance stalledBreakdownState = false ∧
    next_step stalledBreakdownState ≠ stalledBreakdownState ∧
    (next_step stalledBreakdownState).step = 3 := by
  refine ⟨rfl, fun he => ?_, rfl⟩
  have h := congrArg SState.step he
  simp [next_step, stalledBreakdownState, fullInputsState, initState] at h

/-- C3 amended: `advance` (`next_step`) performs no `canAdvance` check at
all — even when `canAdvance` is false it succeeds, increments the stage
index by one, clears the processing flag, and leaves every other entry
unchanged; stage gating lives solely in the presentation layer's
conditional button rendering. -/
theorem advance_never_checks_canAdvance (s : SState)
    (_h : canAdvance s = false) :
    (next_step s).step = s.step + 1 ∧
    (next_step s).processing = false ∧
    (next_step s).mode = s.mode ∧
    (next_step s).proposal_text = s.proposal_text ∧
    (next_step s).proposal_analysis = s.proposal_analysis ∧
    (next_step s).proposal_summary = s.proposal_summary ∧
    (next_step s).rfp_text = s.rfp_text ∧
    (next_step s).company_profile = s.company_profile ∧
    (next_step s).rfp_breakdown = s.rfp_breakdown ∧
    (next_step s).eligibility_analysis = s.eligibility_analysis ∧
    (next_step s).requirements = s.requirements ∧
    (next_step s).tasks = s.tasks ∧
    (next_step s).proposal = s.proposal ∧
    next_step s ≠ s := by
  refine ⟨rfl, rfl, rfl, rfl, rfl, rfl, rfl, rfl, rfl, rfl, rfl, rfl, rfl,
    fun he => ?_⟩
  have hst := congrArg SState.step he
  simp [next_step] at hst

/-- Witness for the amended C3 at the concrete stalled session. -/
theorem advance_never_checks_canAdvance_witness :
    (next_step stalledBreakdownState).step = stalledBreakdownState.step + 1 ∧
    (next_step stalledBreakdownState).processing = false ∧
    (next_step stalledBreakdownState).mode = stalledBreakdownState.mode ∧
    (next_step stalledBreakdownState).proposal_text =
      stalledBreakdownState.proposal_text ∧
    (next_step stalledBreakdownState).proposal_analysis =
      stalledBreakdownState.proposal_analysis ∧
    (next_step stalledBreakdownState).proposal_summary =
      stalledBreakdownState.proposal_summary ∧
    (next_step stalledBreakdownState).rfp_text =
      stalledBreakdownState.rfp_text ∧
    (next_step stalledBreakdownState).company_profile =
      stalledBreakdownState.company_profile ∧
    (next_step stalledBreakdownState).rfp_breakdown =
      stalledBreakdownState.rfp_breakdown ∧
    (next_step stalledBreakdownState).eligibility_analysis =
      stalledBreakdownState.eligibility_analysis ∧
    (next_step stalledBreakdownState).requirements =
      stalledBreakdownState.requirements ∧
    (next_step stalledBreakdownState).tasks = stalledBreakdownState.tasks ∧
    (next_step stalledBreakdownState).proposal =
      stalledBreakdownState.proposal ∧
    next_step stalledBreakdownState ≠ stalledBreakdownState :=
  advance_never_checks_canAdvance stalledBreakdownState rfl

/-! ## C4 -/

/-- A concrete mode-2 session at stage 5 with stage 4's `requirements`
artifact absent and `tasks` unproduced. -/
def missingRequirementsState : SState :=
  { fullInputsState with step := 5 }

/-- Counterexample to C4: with stage 4's artifact absent, the stage-5
block does not fail with a `MissingDependencyError` — it invokes the
task-generation run (exactly once) and stores its result. -/
theorem tasks_without_requirements_counterexample :
    missingRequirementsState.requirements = none ∧
    (ensure_tasks missingRequirementsState (fun _ => some "TASK-001")).2 = 1 ∧
    (ensure_tasks missingRequirementsState
        (fun _ => some "TASK-001")).1.tasks = some "TASK-001" :=
  ⟨rfl, rfl, rfl⟩

/-- C4 amended: the stage-5 block performs no dependency validation:
whenever `tasks` is unproduced it invokes the task-generation run exactly
once, handing it the stored `requirements` entry as-is — in particular the
absent value (`None`) when stage 4 never ran — and raises no
`MissingDependencyError`. -/
theorem ensure_tasks_no_dependency_check (s : SState)
    (run : Option String → Option String)
    (hreq : s.requirements = none) (ht : truthyS s.tasks = false) :
    (ensure_tasks s run).2 = 1 ∧
    (run none = none → (ensure_tasks s run).1 = s) ∧
    (∀ t, run none = some t →
      (ensure_tasks s run).1 = { s with tasks := some t }) := by
  refine ⟨?_, ?_, ?_⟩
  · simp only [ensure_tasks, ht, hreq]
    cases run none <;> simp
  · intro hn
    simp [ensure_tasks, ht, hreq, hn]
  · intro t hsome
    simp [ensure_tasks, ht, hreq, hsome]

/-- Witness for the amended C4 at the concrete session: one generation
call happens despite the missing dependency. -/
theorem ensure_tasks_no_dependency_check_witness :
    (ensure_tasks missingRequirementsState (fun _ => some "TASK-001")).2 = 1 :=
  (ensure_tasks_no_dependency_check missingRequirementsState
    (fun _ => some "TASK-001") rfl rfl).1

/-! ## C5 -/

/-- Counterexample to C5: with a component-analysis stub reporting
exactly "Executive Summary" and "Timeline" as present, the stored
checklist is the fixed eleven-entry dictionary that marks every listed
component (for instance "Budget") as present and does not contain
"Additional Comments" at all — not a fourteen-entry checklist marking
twelve components false. -/
theorem checklist_ignores_stub_counterexample :
    (analyze_proposal_components
        (some "Executive Summary: intro. Timeline: Q3.") (some "")
        (fun _ _ => some "present: Executive Summary, Timeline")).1 =
      some componentsChecklist ∧
    componentsChecklist.length = 11 ∧
    componentsChecklist.lookup "Budget" = some "✅" ∧
    componentsChecklist.lookup "Additional Comments" = none :=
  ⟨rfl, rfl, rfl, rfl⟩

/-- C5 amended: whenever the component-analysis run succeeds,
`analyze_proposal_components` stores the fixed eleven-component
dictionary, every entry of which is unconditionally marked present; the
stub's report is kept only as the separate free-text details field. -/
theorem checklist_is_fixed (p e : Option String)
    (stub : Option String → Option String → Option String) (d : String)
    (hd : stub p e = some d) :
    analyze_proposal_components p e stub = (some componentsChecklist, some d) ∧
    componentsChecklist.length = 11 ∧
    componentsChecklist.all (fun pr => pr.2 = "✅") = true := by
  refine ⟨?_, rfl, by decide⟩
  simp [analyze_proposal_components, hd]

/-- Witness for the amended C5 at concrete inputs. -/
theorem checklist_is_fixed_witness :
    analyze_proposal_components (some "P") none (fun _ _ => some "D") =
      (some componentsChecklist, some "D") :=
  (checklist_is_fixed (some "P") none (fun _ _ => some "D") "D" rfl).1

/-! ## C6 -/

/-- Specification view of the numbering loop: the extras, numbered
consecutively starting at `n`. -/
def numberedExtras : Nat → List String → List String
  | _, [] => []
  | n, c :: cs => (toString n ++ ". " ++ c) :: numberedExtras (n + 1) cs

theorem appendExtras_eq_numberedExtras (l : List String) :
    ∀ (n : Nat) (acc : List String),
      appendExtras n acc l = acc ++ numberedExtras n l := by
  induction l with
  | nil => intro n acc; simp [appendExtras, numberedExtras]
  | cons c cs ih =>
    intro n acc
    simp [appendExtras, numberedExtras, ih]

theorem numberedExtras_length (l : List String) :
    ∀ n, (numberedExtras n l).length = l.length := by
  induction l with
  | nil => intro n; simp [numberedExtras]
  | cons c cs ih => intro n; simp [numberedExtras, ih]

theorem numberedExtras_getD (l : List String) :
    ∀ n j, j < l.length →
      (numberedExtras n l).getD j "" =
        toString (n + j) ++ ". " ++ l.getD j "" := by
  induction l with
  | nil => intro n j hj; simp at hj
  | cons c cs ih =>
    intro n j hj
    cases j with
    | zero => simp [numberedExtras]
    | succ j =>
      have hj' : j < cs.length := by simpa using hj
      have := ih (n + 1) j hj'
      simpa [numberedExtras, Nat.add_assoc, Nat.add_comm 1 j] using this

/-- C6: the checklist assembled by `analysis_proposal` consists of the
fourteen canonical components, in order, each entry carrying its 1-based
number and canonical name; a truthy single-string extra is appended as
entry 15, and a non-empty list of extras is appended after the fourteen,
numbered consecutively starting from 15. -/
theorem components_checklist_contract :
    (components_to_check none = standard_components ∧
     standard_components.length = 14 ∧
     (∀ i, i < 14 → standard_components.getD i "" =
        toString (i + 1) ++ ". " ++ canonical_components.getD i "" ++
          component_qualifiers.getD i "")) ∧
    (∀ s : String, s.isEmpty = false →
      components_to_check (some (Sum.inl s)) =
        standard_components ++ [toString 15 ++ ". " ++ s]) ∧
    (∀ l : List String,
      components_to_check (some (Sum.inr l)) =
        standard_components ++ numberedExtras 15 l ∧
      (components_to_check (some (Sum.inr l))).length = 14 + l.length ∧
      (components_to_check (some (Sum.inr l))).take 14 =
        standard_components ∧
      (∀ j, j < l.length →
        (numberedExtras 15 l).getD j "" =
          toString (15 + j) ++ ". " ++ l.getD j "")) := by
  refine ⟨⟨rfl, rfl, by decide⟩, ?_, ?_⟩
  · intro s hs
    simp [components_to_check, hs, standard_components]
  · intro l
    have hbase : components_to_check (some (Sum.inr l)) =
        standard_components ++ numberedExtras 15 l := by
      cases l with
      | nil => simp [components_to_check, numberedExtras]
      | cons c cs =>
        simp [components_to_check, appendExtras_eq_numberedExtras,
          standard_components]
    refine ⟨hbase, ?_, ?_, fun j hj => numberedExtras_getD l 15 j hj⟩
    · rw [hbase]
      simp [numberedExtras_length, standard_components]
      omega
    · rw [hbase]
      simp [standard_components]

/-- Witness for C6: a concrete single extra is appended as entry 15, and
the second entry of a concrete two-extras list is numbered 16. -/
theorem components_checklist_contract_witness :
    components_to_check (some (Sum.inl "Pricing")) =
      standard_components ++ [toString 15 ++ ". " ++ "Pricing"] ∧
    (numberedExtras 15 ["Alpha", "Beta"]).getD 1 "" =
      toString (15 + 1) ++ ". " ++ (["Alpha", "Beta"] : List String).getD 1 "" :=
  ⟨components_checklist_contract.2.1 "Pricing" rfl,
   (components_checklist_contract.2.2 ["Alpha", "Beta"]).2.2.2 1 (by decide)⟩

/-! ## C8 -/

theorem wp_ne_cp :
    (some "with_proposal" : Option String) ≠ some "create_proposal" := by
  decide

theorem none_ne_cp :
    (none : Option String) ≠ some "create_proposal" := by
  decide

/-- C8: in every reachable session state the stage index never exceeds
`stageCount + 1` — at most 10 in mode `"create_proposal"` (9 stages) and
at most 4 otherwise (3 stages); every advance, reset, generation block
and mode switch preserves the bound. -/
theorem step_never_exceeds_bound (s : SState) (h : Reachable s) :
    stepBound s := by
  induction h with
  | init => exact ⟨fun hm => absurd hm wp_ne_cp, fun _ => by decide⟩
  | next hr hs ih =>
    obtain ⟨ih1, ih2⟩ := ih
    cases hs with
    | init_mode h =>
      exact ⟨fun hm => absurd hm wp_ne_cp,
        fun _ => ih2 (fun hc => Option.noConfusion (h ▸ hc))⟩
    | switch_to_create h =>
      exact ⟨fun _ => show (1 : Nat) ≤ 10 by omega, fun hm => absurd rfl hm⟩
    | switch_to_main h =>
      exact ⟨fun hm => absurd hm wp_ne_cp, fun _ => show (1 : Nat) ≤ 4 by omega⟩
    | m1_sidebar_reset h => exact ⟨ih1, ih2⟩
    | m1_upload t fn ht h h1 => exact ⟨ih1, ih2⟩
    | m1_set_extra e he h h1 => exact ⟨ih1, ih2⟩
    | m1_go_analysis h h1 h2 =>
      exact ⟨fun hm => absurd (h.symm.trans hm) wp_ne_cp,
        fun _ => show (2 : Nat) ≤ 4 by omega⟩
    | m1_produce_analysis run h h1 =>
      refine ⟨fun hm => ?_, fun _ => ?_⟩
      · rw [ensure_proposal_analysis_mode] at hm
        exact absurd (h.symm.trans hm) wp_ne_cp
      · rw [ensure_proposal_analysis_step, h1]
        omega
    | m1_back h h1 h2 =>
      exact ⟨fun hm => absurd (h.symm.trans hm) wp_ne_cp,
        fun _ => show (1 : Nat) ≤ 4 by omega⟩
    | m1_go_summary h h1 h2 =>
      exact ⟨fun hm => absurd (h.symm.trans hm) wp_ne_cp,
        fun _ => show (3 : Nat) ≤ 4 by omega⟩
    | m1_produce_summary run h h1 =>
      refine ⟨fun hm => ?_, fun _ => ?_⟩
      · rw [ensure_proposal_summary_mode] at hm
        exact absurd (h.symm.trans hm) wp_ne_cp
      · rw [ensure_proposal_summary_step, h1]
        omega
    | m2_init_profile c h hc => exact ⟨ih1, ih2⟩
    | m2_set_rfp t ht h h1 => exact ⟨ih1, ih2⟩
    | m2_set_profile c hc h h1 => exact ⟨ih1, ih2⟩
    | m2_go_breakdown h h1 h2 h3 =>
      exact ⟨fun _ => show (2 : Nat) ≤ 10 by omega, fun hm => absurd h hm⟩
    | m2_produce_breakdown run h h1 =>
      refine ⟨fun _ => ?_, fun hm => ?_⟩
      · rw [ensure_rfp_breakdown_step, h1]; omega
      · rw [ensure_rfp_breakdown_mode] at hm; exact absurd h hm
    | m2_produce_eligibility run h h1 =>
      refine ⟨fun _ => ?_, fun hm => ?_⟩
      · rw [ensure_eligibility_step, h1]; omega
      · rw [ensure_eligibility_mode] at hm; exact absurd h hm
    | m2_produce_requirements run h h1 =>
      refine ⟨fun _ => ?_, fun hm => ?_⟩
      · rw [ensure_requirements_step, h1]; omega
      · rw [ensure_requirements_mode] at hm; exact absurd h hm
    | m2_produce_tasks run h h1 =>
      refine ⟨fun _ => ?_, fun hm => ?_⟩
      · rw [ensure_tasks_step, h1]; omega
      · rw [ensure_tasks_mode] at hm; exact absurd h hm
    | m2_produce_competitive run h h1 =>
      refine ⟨fun _ => ?_, fun hm => ?_⟩
      · rw [ensure_competitive_analysis_step, h1]; omega
      · rw [ensure_competitive_analysis_mode] at hm; exact absurd h hm
    | m2_produce_innovation run h h1 =>
      refine ⟨fun _ => ?_, fun hm => ?_⟩
      · rw [ensure_innovation_assessment_step, h1]; omega
      · rw [ensure_innovation_assessment_mode] at hm; exact absurd h hm
    | m2_produce_briefing run h h1 =>
      refine ⟨fun _ => ?_, fun hm => ?_⟩
      · rw [ensure_executive_briefing_step, h1]; omega
      · rw [ensure_executive_briefing_mode] at hm; exact absurd h hm
    | m2_produce_proposal run h h1 =>
      refine ⟨fun _ => ?_, fun hm => ?_⟩
      · rw [ensure_proposal_step, h1]; omega
      · rw [ensure_proposal_mode] at hm; exact absurd h hm
    | m2_next h h2 h8 =>
      exact ⟨fun _ => Nat.le_trans (Nat.succ_le_succ h8) (by omega),
        fun hm => absurd h hm⟩
    | m2_decline h h1 =>
      exact ⟨fun hm => absurd hm none_ne_cp, fun _ => show (1 : Nat) ≤ 4 by omega⟩
    | m2_start_over h =>
      exact ⟨fun hm => absurd hm none_ne_cp, fun _ => show (1 : Nat) ≤ 4 by omega⟩
    | m2_new_proposal h h1 =>
      exact ⟨fun _ => h1.trans_le (by omega), fun hm => absurd h hm⟩
    | m2_start_new h h1 =>
      exact ⟨fun hm => absurd hm none_ne_cp, fun _ => show (1 : Nat) ≤ 4 by omega⟩

/-- Witness for C8 at the initial session state. -/
theorem step_never_exceeds_bound_witness : stepBound initState :=
  step_never_exceeds_bound initState Reachable.init

end RFPTool
